import Mathlib

/-!
Verification of the pushup-analyzer streaming service.

Shallow embedding of `src/process_pushup.py` (the rep state machine
`update_feedback_and_count` and the per-frame pipeline `process_frame`) and
of the per-connection session loop in `src/main.py`
(`websocket_live_stream`).

Python floats used for `count` and the joint angles are modelled as
rationals (all values reachable here are halves, which float arithmetic
represents exactly); Python ints (`direction`, `form`) as integers.
External collaborators (pose detection, image codec, websocket transport)
are modelled as parameters/events: a received message either fails to
decode or decodes and yields a pose-detection outcome.
-/

namespace Pushup

/-- Result quadruple of `update_feedback_and_count` in
`src/process_pushup.py` (Python returns `feedback, count, direction, form`). -/
structure UpdateResult where
  feedback : String
  count : ℚ
  direction : ℤ
  form : ℤ
deriving DecidableEq, Repr

/-- Embedding of `update_feedback_and_count(elbow, shoulder, hip, direction,
count, form)` from `src/process_pushup.py` lines 8-37. -/
def update_feedback_and_count (elbow shoulder hip : ℚ) (direction : ℤ)
    (count : ℚ) (form : ℤ) : UpdateResult :=
  -- `if elbow > 160 and shoulder > 40 and hip > 160: form = 1`
  let form := if elbow > 160 ∧ shoulder > 40 ∧ hip > 160 then 1 else form
  if form = 1 then
    if elbow ≤ 90 ∧ hip > 160 then
      if direction = 0 then
        { feedback := "Good - Push Up", count := count + 1/2, direction := 1,
          form := form }
      else
        { feedback := "Good - Push Up", count := count, direction := direction,
          form := form }
    else if elbow > 160 ∧ shoulder > 40 ∧ hip > 160 then
      if direction = 1 then
        { feedback := "Good - Go Down", count := count + 1/2, direction := 0,
          form := form }
      else
        { feedback := "Good - Go Down", count := count, direction := direction,
          form := form }
    else
      { feedback := "Fix Form", count := count, direction := direction,
        form := form }
  else
    { feedback := "Get into starting position", count := count,
      direction := direction, form := form }

/-- Pose-detection outcome for one decoded frame, as `process_frame`
distinguishes them: empty landmark list, an exception while computing
angles, or three computed joint angles. -/
inductive PoseOutcome
  | noLandmarks
  | angleError
  | angles (elbow shoulder hip : ℚ)
deriving DecidableEq, Repr

/-- The image returned by `process_frame`: the fixed "Invalid Frame"
placeholder canvas, or the frame copy with the UI drawn on it. -/
inductive OutImage
  | invalidPlaceholder
  | rendered
deriving DecidableEq, Repr

/-- Result quintuple of `process_frame` (`processed_image, count, direction,
form, feedback`). -/
structure FrameResult where
  image : OutImage
  count : ℚ
  direction : ℤ
  form : ℤ
  feedback : String
deriving DecidableEq, Repr

/-- Embedding of `process_frame(img, detector, count, direction, form)` from
`src/process_pushup.py` lines 79-153. `imgValid` is the line-91 check
(`img is None or img.size == 0` fails); the detector is abstracted into the
`PoseOutcome` it produces for this image. -/
def process_frame (imgValid : Bool) (pose : PoseOutcome) (count : ℚ)
    (direction form : ℤ) : FrameResult :=
  if ¬ imgValid then
    { image := OutImage.invalidPlaceholder, count := count,
      direction := direction, form := form, feedback := "Move into frame" }
  else
    match pose with
    | PoseOutcome.noLandmarks =>
        { image := OutImage.rendered, count := count, direction := direction,
          form := form, feedback := "Move into frame" }
    | PoseOutcome.angleError =>
        { image := OutImage.rendered, count := count, direction := direction,
          form := form, feedback := "Error detecting pose" }
    | PoseOutcome.angles elbow shoulder hip =>
        let r := update_feedback_and_count elbow shoulder hip direction count form
        { image := OutImage.rendered, count := r.count,
          direction := r.direction, form := r.form, feedback := r.feedback }

/-- Per-connection mutable state of `websocket_live_stream` in
`src/main.py` lines 66-77 (`count, direction, form, frame_count,
error_count, correct_reps, incorrect_reps`). -/
structure SessionState where
  count : ℚ
  direction : ℤ
  form : ℤ
  frame_count : ℕ
  error_count : ℕ
  correct_reps : ℕ
  incorrect_reps : ℕ
deriving DecidableEq, Repr

/-- State at connection accept: `count = 0, direction = 0, form = 0,
frame_count = 0, error_count = 0, correct_reps = 0, incorrect_reps = 0`. -/
def initialSession : SessionState :=
  { count := 0, direction := 0, form := 0, frame_count := 0,
    error_count := 0, correct_reps := 0, incorrect_reps := 0 }

/-- `max_errors = 10` in `src/main.py` line 72. -/
def max_errors : ℕ := 10

/-- One received binary message, as the loop body distinguishes it:
`decodeFail` covers `cv2.imdecode` returning `None`/empty or raising
(lines 94-113); `frame pose encodeOk` is a successfully decoded frame with
the detector outcome `pose` and the `cv2.imencode` success flag. -/
inductive SessionEvent
  | decodeFail
  | frame (pose : PoseOutcome) (encodeOk : Bool)
deriving DecidableEq, Repr

/-- Outcome of one loop iteration: the updated state, whether the annotated
binary frame was sent, whether the telemetry text message was sent, and
whether the loop terminates the session. -/
structure StepOut where
  state : SessionState
  sentFrame : Bool
  sentTelemetry : Bool
  terminated : Bool
deriving DecidableEq, Repr

/-- Embedding of one iteration of the receive loop of
`websocket_live_stream` (`src/main.py` lines 80-173), starting after
`receive_bytes` succeeded: `frame_count += 1`; decode; on decode failure
`error_count += 1`, terminate when `error_count >= max_errors`, else skip
to the next message with nothing sent; on success `error_count = 0`, run
`process_frame`, tally correct/incorrect when the returned count changed
(classified by the returned form), adopt the returned state, then encode
(failure skips the sends) and send the frame plus, when
`frame_count % 10 == 0`, the telemetry text message. Transport sends are
assumed to succeed (a send failure is fatal and carries no state of its
own). -/
def sessionStep (s : SessionState) (ev : SessionEvent) : StepOut :=
  match ev with
  | SessionEvent.decodeFail =>
      let fc := s.frame_count + 1
      let ec := s.error_count + 1
      let s1 := { s with frame_count := fc, error_count := ec }
      if ec ≥ max_errors then
        { state := s1, sentFrame := false, sentTelemetry := false,
          terminated := true }
      else
        { state := s1, sentFrame := false, sentTelemetry := false,
          terminated := false }
  | SessionEvent.frame pose encodeOk =>
      let fc := s.frame_count + 1
      let r := process_frame true pose s.count s.direction s.form
      let cr := if r.count ≠ s.count ∧ r.form = 1 then s.correct_reps + 1
                else s.correct_reps
      let ir := if r.count ≠ s.count ∧ ¬ r.form = 1 then s.incorrect_reps + 1
                else s.incorrect_reps
      let s1 : SessionState :=
        { count := r.count, direction := r.direction, form := r.form,
          frame_count := fc, error_count := 0,
          correct_reps := cr, incorrect_reps := ir }
      if encodeOk then
        { state := s1, sentFrame := true, sentTelemetry := fc % 10 = 0,
          terminated := false }
      else
        { state := s1, sentFrame := false, sentTelemetry := false,
          terminated := false }

/-- Run the session loop over a list of received messages, stopping early
when an iteration terminates the session; returns the final state and
whether the session was terminated by the error ceiling. -/
def sessionRun (s : SessionState) : List SessionEvent → SessionState × Bool
  | [] => (s, false)
  | ev :: rest =>
      let o := sessionStep s ev
      if o.terminated then (o.state, true) else sessionRun o.state rest

/-- Number of successfully decoded (hence successfully processed) frames in
a list of received messages; used to state the telemetry-cadence claim. -/
def successCount : List SessionEvent → ℕ
  | [] => 0
  | SessionEvent.decodeFail :: rest => successCount rest
  | SessionEvent.frame _ _ :: rest => successCount rest + 1

/-- Thread a list of angle-triple frames through
`update_feedback_and_count`, the way the session loop threads rep state
across frames; returns the final `(count, direction, form)`. -/
def runUpdates : List (ℚ × ℚ × ℚ) → ℤ → ℚ → ℤ → ℚ × ℤ × ℤ
  | [], direction, count, form => (count, direction, form)
  | (e, sh, h) :: rest, direction, count, form =>
      let r := update_feedback_and_count e sh h direction count form
      runUpdates rest r.direction r.count r.form

/-- A session state with posture already confirmed (`form = 1`) and the
hysteresis flag awaiting a descent (`direction = 0`), no reps counted yet. -/
def formReadyState : SessionState :=
  { count := 0, direction := 0, form := 1, frame_count := 0,
    error_count := 0, correct_reps := 0, incorrect_reps := 0 }

/-- A successfully decoded and encoded frame whose angles satisfy the down
condition (`elbow = 80 ≤ 90`, `hip = 170 > 160`). -/
def downFrameEvent : SessionEvent :=
  SessionEvent.frame (PoseOutcome.angles 80 0 170) true

/-- One decode-failed message followed by eight successfully processed
frames: nine received messages of which eight decode. -/
def cadenceProbeEvents : List SessionEvent :=
  SessionEvent.decodeFail ::
    List.replicate 8 (SessionEvent.frame PoseOutcome.noLandmarks true)

/-- The count returned by one state-machine update is the old count or the
old count plus one half. -/
lemma update_count_cases (e sh h : ℚ) (dir : ℤ) (c : ℚ) (f : ℤ) :
    (update_feedback_and_count e sh h dir c f).count = c ∨
    (update_feedback_and_count e sh h dir c f).count = c + 1/2 := by
  simp only [update_feedback_and_count]
  split_ifs <;> simp

/-- The form returned by one state-machine update is 1 when the
posture-valid check fires and the input form otherwise. -/
lemma update_form_eq (e sh h : ℚ) (dir : ℤ) (c : ℚ) (f : ℤ) :
    (update_feedback_and_count e sh h dir c f).form =
      (if e > 160 ∧ sh > 40 ∧ h > 160 then 1 else f) := by
  simp only [update_feedback_and_count]
  split_ifs <;> simp_all

/-- Threading any frame sequence from a form-1 state keeps form at 1. -/
lemma runUpdates_form_sticky (frames : List (ℚ × ℚ × ℚ)) :
    ∀ (dir : ℤ) (c : ℚ), (runUpdates frames dir c 1).2.2 = 1 := by
  induction frames with
  | nil => intro dir c; rfl
  | cons t rest ih =>
      intro dir c
      obtain ⟨e, sh, h⟩ := t
      simp only [runUpdates]
      have hf := update_form_eq e sh h dir c 1
      split_ifs at hf <;> rw [hf] <;> exact ih _ _

/-- A down-condition frame fed at form 1 and direction 1 changes nothing. -/
lemma update_down_dir1 (e sh h : ℚ) (c : ℚ) (he : e ≤ 90) (hh : h > 160) :
    update_feedback_and_count e sh h 1 c 1 =
      { feedback := "Good - Push Up", count := c, direction := 1, form := 1 } := by
  simp only [update_feedback_and_count]
  split_ifs <;> simp_all

/-- A down-condition frame fed at form 1 and direction 0 awards the half
rep and flips the hysteresis flag. -/
lemma update_down_dir0 (e sh h : ℚ) (c : ℚ) (he : e ≤ 90) (hh : h > 160) :
    update_feedback_and_count e sh h 0 c 1 =
      { feedback := "Good - Push Up", count := c + 1/2, direction := 1, form := 1 } := by
  simp only [update_feedback_and_count]
  split_ifs <;> simp_all

/-- A whole list of down-condition frames fed at form 1 and direction 1
changes nothing. -/
lemma runUpdates_down_dir1 (frames : List (ℚ × ℚ × ℚ))
    (hdown : ∀ t ∈ frames, t.1 ≤ 90 ∧ t.2.2 > 160) :
    ∀ c : ℚ, runUpdates frames 1 c 1 = (c, 1, 1) := by
  induction frames with
  | nil => intro c; rfl
  | cons t rest ih =>
      intro c
      obtain ⟨e, sh, h⟩ := t
      have ht := hdown (e, sh, h) (List.mem_cons_self _ _)
      simp only [runUpdates, update_down_dir1 e sh h c ht.1 ht.2]
      exact ih (fun t htm => hdown t (List.mem_cons_of_mem _ htm)) c

/-- Closed form of a decode-failure iteration: nothing is sent and the
session terminates exactly when the incremented error counter reaches the
ceiling. -/
lemma sessionStep_decodeFail (s : SessionState) :
    sessionStep s SessionEvent.decodeFail =
      if s.error_count + 1 ≥ max_errors then
        { state := { s with frame_count := s.frame_count + 1,
                            error_count := s.error_count + 1 },
          sentFrame := false, sentTelemetry := false, terminated := true }
      else
        { state := { s with frame_count := s.frame_count + 1,
                            error_count := s.error_count + 1 },
          sentFrame := false, sentTelemetry := false, terminated := false } := by
  simp only [sessionStep]

/-- A run of decode failures below the ceiling only advances the frame and
error counters and does not terminate. -/
lemma sessionRun_decodeFail_replicate (k : ℕ) :
    ∀ s : SessionState, s.error_count + k < max_errors →
      sessionRun s (List.replicate k SessionEvent.decodeFail) =
        ({ s with frame_count := s.frame_count + k,
                  error_count := s.error_count + k }, false) := by
  induction k with
  | zero => intro s _; simp [sessionRun]
  | succ k ih =>
      intro s hk
      rw [List.replicate_succ]
      have hlt : ¬ s.error_count + 1 ≥ max_errors := by
        simp only [max_errors] at *; omega
      simp only [sessionRun, sessionStep_decodeFail, if_neg hlt]
      rw [ih _ (by simp only [max_errors] at *; omega)]
      have h1 : s.frame_count + 1 + k = s.frame_count + (k + 1) := by omega
      have h2 : s.error_count + 1 + k = s.error_count + (k + 1) := by omega
      rw [h1, h2]
      simp

/-- Running a concatenation whose first part does not terminate equals
running the parts in sequence. -/
lemma sessionRun_append (l1 l2 : List SessionEvent) :
    ∀ s : SessionState, (sessionRun s l1).2 = false →
      sessionRun s (l1 ++ l2) = sessionRun (sessionRun s l1).1 l2 := by
  induction l1 with
  | nil => intro s _; rfl
  | cons ev rest ih =>
      intro s hterm
      simp only [List.cons_append, sessionRun] at hterm ⊢
      by_cases ht : (sessionStep s ev).terminated = true
      · rw [if_pos ht] at hterm; simp at hterm
      · rw [if_neg ht] at hterm ⊢; rw [if_neg ht]; exact ih _ hterm

/-- A successfully decoded frame never terminates the loop and resets the
consecutive-error counter to zero. -/
lemma sessionStep_frame_fields (s : SessionState) (pose : PoseOutcome) (eok : Bool) :
    (sessionStep s (SessionEvent.frame pose eok)).terminated = false ∧
    (sessionStep s (SessionEvent.frame pose eok)).state.error_count = 0 := by
  simp only [sessionStep]
  split_ifs <;> exact ⟨rfl, rfl⟩

/-- Running a single successfully decoded frame is one non-terminating
step. -/
lemma sessionRun_single_frame (s : SessionState) (pose : PoseOutcome) (eok : Bool) :
    sessionRun s [SessionEvent.frame pose eok] =
      ((sessionStep s (SessionEvent.frame pose eok)).state, false) := by
  simp only [sessionRun]
  rw [if_neg (by simp [(sessionStep_frame_fields s pose eok).1])]

/-- The frame pipeline changes the count by zero or exactly one half. -/
lemma process_frame_count_cases (pose : PoseOutcome) (c : ℚ) (dir f : ℤ) :
    (process_frame true pose c dir f).count = c ∨
    (process_frame true pose c dir f).count = c + 1/2 := by
  cases pose with
  | noLandmarks => exact Or.inl rfl
  | angleError => exact Or.inl rfl
  | angles e sh h =>
      rcases update_count_cases e sh h dir c f with hc | hc <;>
        [left; right] <;> simpa [process_frame] using hc

/-- Claim C3: for every state-machine update whose returned form is 1, the
down condition yields feedback "Good - Push Up" with the half-rep award and
direction flip exactly when direction was 0; otherwise the up condition
yields "Good - Go Down" with the award and flip exactly when direction was
1; otherwise feedback is "Fix Form" and count and direction are unchanged. -/
theorem update_phase_cases (e sh h : ℚ) (dir : ℤ) (c : ℚ) (f : ℤ)
    (hform : (update_feedback_and_count e sh h dir c f).form = 1) :
    ((e ≤ 90 ∧ h > 160) →
      (update_feedback_and_count e sh h dir c f).feedback = "Good - Push Up" ∧
      (update_feedback_and_count e sh h dir c f).count = (if dir = 0 then c + 1/2 else c) ∧
      (update_feedback_and_count e sh h dir c f).direction = (if dir = 0 then 1 else dir)) ∧
    (¬(e ≤ 90 ∧ h > 160) → (e > 160 ∧ sh > 40 ∧ h > 160) →
      (update_feedback_and_count e sh h dir c f).feedback = "Good - Go Down" ∧
      (update_feedback_and_count e sh h dir c f).count = (if dir = 1 then c + 1/2 else c) ∧
      (update_feedback_and_count e sh h dir c f).direction = (if dir = 1 then 0 else dir)) ∧
    (¬(e ≤ 90 ∧ h > 160) → ¬(e > 160 ∧ sh > 40 ∧ h > 160) →
      (update_feedback_and_count e sh h dir c f).feedback = "Fix Form" ∧
      (update_feedback_and_count e sh h dir c f).count = c ∧
      (update_feedback_and_count e sh h dir c f).direction = dir) := by
  simp only [update_feedback_and_count] at hform ⊢
  split_ifs at hform ⊢ <;> simp_all

/-- Witness for C3 at the down condition: elbow 80, hip 170, direction 0,
form confirmed. -/
theorem update_phase_cases_witness :
    (update_feedback_and_count 80 0 170 0 0 1).feedback = "Good - Push Up" ∧
    (update_feedback_and_count 80 0 170 0 0 1).count = (if (0:ℤ) = 0 then (0:ℚ) + 1/2 else 0) ∧
    (update_feedback_and_count 80 0 170 0 0 1).direction = (if (0:ℤ) = 0 then 1 else 0) :=
  (update_phase_cases 80 0 170 0 0 1 (by decide)).1 (by norm_num)

/-- Claim C10: one state-machine update changes the count exactly when it
changes the direction. -/
theorem count_direction_change_iff (e sh h : ℚ) (dir : ℤ) (c : ℚ) (f : ℤ) :
    (update_feedback_and_count e sh h dir c f).count ≠ c ↔
    (update_feedback_and_count e sh h dir c f).direction ≠ dir := by
  simp only [update_feedback_and_count]
  split_ifs <;> simp_all

/-- Claim C5: the form flag is sticky — an input form of 1 yields output
form 1, any posture-valid input yields output form 1, and once form is 1 it
stays 1 under any further sequence of frames. -/
theorem form_sticky (e sh h : ℚ) (dir : ℤ) (c : ℚ) (f : ℤ)
    (frames : List (ℚ × ℚ × ℚ)) (dir2 : ℤ) (c2 : ℚ) :
    (update_feedback_and_count e sh h dir c 1).form = 1 ∧
    ((e > 160 ∧ sh > 40 ∧ h > 160) →
      (update_feedback_and_count e sh h dir c f).form = 1) ∧
    (runUpdates frames dir2 c2 1).2.2 = 1 := by
  refine ⟨?_, ?_, runUpdates_form_sticky frames dir2 c2⟩
  · rw [update_form_eq]; split_ifs <;> rfl
  · intro hcond; rw [update_form_eq, if_pos hcond]

/-- Witness for C5: a posture-valid frame at form 0, and a later sequence
of non-valid frames that keeps form at 1. -/
theorem form_sticky_witness :
    (update_feedback_and_count 170 50 170 0 0 1).form = 1 ∧
    ((170:ℚ) > 160 ∧ (50:ℚ) > 40 ∧ (170:ℚ) > 160 →
      (update_feedback_and_count 170 50 170 0 0 0).form = 1) ∧
    (runUpdates [(80, 0, 170), (20, 10, 30)] 0 0 1).2.2 = 1 :=
  form_sticky 170 50 170 0 0 0 [(80, 0, 170), (20, 10, 30)] 0 0

/-- Claim C6: per update the count never decreases and moves by 0 or
exactly one half, and binary direction and form values stay binary. -/
theorem count_step_bounds (e sh h : ℚ) (dir : ℤ) (c : ℚ) (f : ℤ) :
    c ≤ (update_feedback_and_count e sh h dir c f).count ∧
    ((update_feedback_and_count e sh h dir c f).count - c = 0 ∨
     (update_feedback_and_count e sh h dir c f).count - c = 1/2) ∧
    ((dir = 0 ∨ dir = 1) → (f = 0 ∨ f = 1) →
      ((update_feedback_and_count e sh h dir c f).direction = 0 ∨
       (update_feedback_and_count e sh h dir c f).direction = 1) ∧
      ((update_feedback_and_count e sh h dir c f).form = 0 ∨
       (update_feedback_and_count e sh h dir c f).form = 1)) := by
  simp only [update_feedback_and_count]
  split_ifs <;> simp <;> tauto

/-- Witness for C6 at a half-rep-awarding update. -/
theorem count_step_bounds_witness :
    (0:ℚ) ≤ (update_feedback_and_count 80 0 170 0 0 1).count ∧
    ((update_feedback_and_count 80 0 170 0 0 1).count - 0 = 0 ∨
     (update_feedback_and_count 80 0 170 0 0 1).count - 0 = 1/2) ∧
    (((update_feedback_and_count 80 0 170 0 0 1).direction = 0 ∨
      (update_feedback_and_count 80 0 170 0 0 1).direction = 1) ∧
     ((update_feedback_and_count 80 0 170 0 0 1).form = 0 ∨
      (update_feedback_and_count 80 0 170 0 0 1).form = 1)) :=
  ⟨(count_step_bounds 80 0 170 0 0 1).1, (count_step_bounds 80 0 170 0 0 1).2.1,
   (count_step_bounds 80 0 170 0 0 1).2.2 (Or.inl rfl) (Or.inr rfl)⟩

/-- Claim C7: a nonempty run of down-condition frames at form 1 raises the
count by exactly one half when the starting direction is 0 and by nothing
when it is 1 — the down step fires once, not per frame. -/
theorem down_idempotent (frames : List (ℚ × ℚ × ℚ)) (hne : frames ≠ [])
    (hdown : ∀ t ∈ frames, t.1 ≤ 90 ∧ t.2.2 > 160) (dir : ℤ) (c : ℚ)
    (hdir : dir = 0 ∨ dir = 1) :
    (runUpdates frames dir c 1).1 = (if dir = 0 then c + 1/2 else c) := by
  cases frames with
  | nil => exact absurd rfl hne
  | cons t rest =>
      obtain ⟨e, sh, h⟩ := t
      have ht := hdown (e, sh, h) (List.mem_cons_self _ _)
      have hrest : ∀ t ∈ rest, t.1 ≤ 90 ∧ t.2.2 > 160 :=
        fun t htm => hdown t (List.mem_cons_of_mem _ htm)
      rcases hdir with hdir | hdir <;> subst hdir
      · rw [if_pos rfl]
        simp only [runUpdates, update_down_dir0 e sh h c ht.1 ht.2]
        rw [runUpdates_down_dir1 rest hrest (c + 1/2)]
      · rw [if_neg (by decide)]
        simp only [runUpdates, update_down_dir1 e sh h c ht.1 ht.2]
        rw [runUpdates_down_dir1 rest hrest c]

/-- Witness for C7: three identical down-condition frames from direction 0
award one half rep in total. -/
theorem down_idempotent_witness :
    (runUpdates [(80, 0, 170), (80, 0, 170), (80, 0, 170)] 0 0 1).1 =
      (if (0:ℤ) = 0 then (0:ℚ) + 1/2 else 0) :=
  down_idempotent [(80, 0, 170), (80, 0, 170), (80, 0, 170)] (by simp)
    (by norm_num) 0 0 (Or.inl rfl)

/-- Claim C8: a valid image with an empty landmark list yields feedback
"Move into frame", leaves count, direction and form unchanged, and still
returns a rendered frame. -/
theorem no_pose_preserves_state (c : ℚ) (dir f : ℤ) :
    process_frame true PoseOutcome.noLandmarks c dir f =
      { image := OutImage.rendered, count := c, direction := dir, form := f,
        feedback := "Move into frame" } := rfl

/-- Claim C9: the posture-valid check runs before phase evaluation in the
same call — a posture-valid input at form 0 returns form 1 with feedback
"Good - Go Down", and when direction is 1 it also awards the ascent half
rep and sets direction 0 in that same call. -/
theorem posture_check_precedes_phase (e sh h : ℚ) (dir : ℤ) (c : ℚ)
    (he : e > 160) (hsh : sh > 40) (hh : h > 160) :
    (update_feedback_and_count e sh h dir c 0).form = 1 ∧
    (update_feedback_and_count e sh h dir c 0).feedback = "Good - Go Down" ∧
    (dir = 1 →
      (update_feedback_and_count e sh h dir c 0).count = c + 1/2 ∧
      (update_feedback_and_count e sh h dir c 0).direction = 0) := by
  simp only [update_feedback_and_count]
  split_ifs <;> simp_all <;> linarith

/-- Witness for C9 at elbow 170, shoulder 50, hip 170, direction 1, form 0. -/
theorem posture_check_precedes_phase_witness :
    (update_feedback_and_count 170 50 170 1 0 0).form = 1 ∧
    (update_feedback_and_count 170 50 170 1 0 0).feedback = "Good - Go Down" ∧
    ((1:ℤ) = 1 →
      (update_feedback_and_count 170 50 170 1 0 0).count = 0 + 1/2 ∧
      (update_feedback_and_count 170 50 170 1 0 0).direction = 0) :=
  posture_check_precedes_phase 170 50 170 1 0 (by norm_num) (by norm_num) (by norm_num)

/-- Claim C4: from a zero error counter, ten consecutive decode failures
terminate the session; at most nine failures followed by one successful
decode do not terminate it and reset the error counter to zero; a
decode-failed frame sends nothing to the client. -/
theorem decode_error_policy (s : SessionState) (hs : s.error_count = 0)
    (pose : PoseOutcome) (eok : Bool) (k : ℕ) (hk : k ≤ 9) :
    (sessionRun s (List.replicate 10 SessionEvent.decodeFail)).2 = true ∧
    (sessionRun s (List.replicate k SessionEvent.decodeFail ++
        [SessionEvent.frame pose eok])).2 = false ∧
    (sessionRun s (List.replicate k SessionEvent.decodeFail ++
        [SessionEvent.frame pose eok])).1.error_count = 0 ∧
    (sessionStep s SessionEvent.decodeFail).sentFrame = false ∧
    (sessionStep s SessionEvent.decodeFail).sentTelemetry = false := by
  have h9 := sessionRun_decodeFail_replicate 9 s (by simp [max_errors, hs])
  have hky := sessionRun_decodeFail_replicate k s (by simp only [max_errors]; omega)
  refine ⟨?_, ?_, ?_, ?_, ?_⟩
  · have h10 : (10 : ℕ) = 9 + 1 := rfl
    rw [h10, List.replicate_succ', sessionRun_append _ _ s (by rw [h9])]
    rw [h9]
    simp only [sessionRun, sessionStep_decodeFail]
    rw [if_pos (by simp [hs, max_errors])]
  · rw [sessionRun_append _ _ s (by rw [hky]), hky, sessionRun_single_frame]
  · rw [sessionRun_append _ _ s (by rw [hky]), hky, sessionRun_single_frame]
    exact (sessionStep_frame_fields _ pose eok).2
  · rw [sessionStep_decodeFail]; split_ifs <;> rfl
  · rw [sessionStep_decodeFail]; split_ifs <;> rfl

/-- Witness for C4 from the initial session state with nine failures then
one decoded frame. -/
theorem decode_error_policy_witness :
    (sessionRun initialSession (List.replicate 10 SessionEvent.decodeFail)).2 = true ∧
    (sessionRun initialSession (List.replicate 9 SessionEvent.decodeFail ++
        [SessionEvent.frame PoseOutcome.noLandmarks true])).2 = false ∧
    (sessionRun initialSession (List.replicate 9 SessionEvent.decodeFail ++
        [SessionEvent.frame PoseOutcome.noLandmarks true])).1.error_count = 0 ∧
    (sessionStep initialSession SessionEvent.decodeFail).sentFrame = false ∧
    (sessionStep initialSession SessionEvent.decodeFail).sentTelemetry = false :=
  decode_error_policy initialSession rfl PoseOutcome.noLandmarks true 9 (by norm_num)

/-- Claim C1 (amended): on a successfully decoded frame the tallies update
on every count change — which is always a change of exactly one half, so
one tally increment per half rep, not per whole-number advance — classified
by the form value returned for that frame. -/
theorem tally_per_half_rep (s : SessionState) (pose : PoseOutcome) (eok : Bool) :
    ((process_frame true pose s.count s.direction s.form).count = s.count ∨
     (process_frame true pose s.count s.direction s.form).count = s.count + 1/2) ∧
    (sessionStep s (SessionEvent.frame pose eok)).state.correct_reps =
      (if (process_frame true pose s.count s.direction s.form).count ≠ s.count ∧
          (process_frame true pose s.count s.direction s.form).form = 1
       then s.correct_reps + 1 else s.correct_reps) ∧
    (sessionStep s (SessionEvent.frame pose eok)).state.incorrect_reps =
      (if (process_frame true pose s.count s.direction s.form).count ≠ s.count ∧
          ¬ (process_frame true pose s.count s.direction s.form).form = 1
       then s.incorrect_reps + 1 else s.incorrect_reps) := by
  refine ⟨process_frame_count_cases pose s.count s.direction s.form, ?_, ?_⟩ <;>
    · simp only [sessionStep]
      split_ifs <;> simp_all

/-- Counterexample to C1 as stated: a down-condition frame moves the count
from 0 to one half — the whole-number part does not advance — yet the
correct tally is incremented. -/
theorem half_rep_tallied :
    (sessionStep formReadyState downFrameEvent).state.count = 1/2 ∧
    Int.floor (sessionStep formReadyState downFrameEvent).state.count =
      Int.floor formReadyState.count ∧
    (sessionStep formReadyState downFrameEvent).state.correct_reps =
      formReadyState.correct_reps + 1 := by
  have h : sessionStep formReadyState downFrameEvent =
      { state := { count := 1/2, direction := 1, form := 1, frame_count := 1,
                   error_count := 0, correct_reps := 1, incorrect_reps := 0 },
        sentFrame := true, sentTelemetry := false, terminated := false } := by
    norm_num [sessionStep, formReadyState, downFrameEvent, process_frame,
      update_feedback_and_count]
  rw [h]
  refine ⟨rfl, ?_, rfl⟩
  have h0 : formReadyState.count = 0 := rfl
  rw [h0]
  norm_num [Int.floor_eq_zero_iff]

/-- Claim C2 (amended): the telemetry text message is sent on a frame that
decodes and encodes successfully exactly when the running total of received
frames — decode-failed frames included — is a multiple of 10; decode-failed
and encode-failed frames never trigger telemetry, but a decode failure does
advance the frame total. -/
theorem telemetry_cadence (s : SessionState) (pose : PoseOutcome) (eok : Bool) :
    ((sessionStep s (SessionEvent.frame pose true)).sentTelemetry = true ↔
      (s.frame_count + 1) % 10 = 0) ∧
    (sessionStep s (SessionEvent.frame pose false)).sentTelemetry = false ∧
    (sessionStep s SessionEvent.decodeFail).sentTelemetry = false ∧
    (sessionStep s SessionEvent.decodeFail).state.frame_count = s.frame_count + 1 ∧
    (sessionStep s (SessionEvent.frame pose eok)).state.frame_count = s.frame_count + 1 := by
  refine ⟨?_, ?_, ?_, ?_, ?_⟩
  · simp only [sessionStep]
    split_ifs <;> simp_all
  · simp only [sessionStep]
    split_ifs <;> simp_all
  · rw [sessionStep_decodeFail]; split_ifs <;> rfl
  · rw [sessionStep_decodeFail]; split_ifs <;> rfl
  · simp only [sessionStep]; split_ifs <;> rfl

/-- Counterexample to C2 as stated: after one decode failure and eight
processed frames, the ninth successfully processed frame (the tenth
received message) triggers telemetry although nine is not a multiple of
ten. -/
theorem telemetry_off_processed_count :
    successCount (cadenceProbeEvents ++
        [SessionEvent.frame PoseOutcome.noLandmarks true]) = 9 ∧
    (9 % 10 ≠ 0) ∧
    (sessionRun initialSession cadenceProbeEvents).2 = false ∧
    successCount cadenceProbeEvents = 8 ∧
    (sessionStep (sessionRun initialSession cadenceProbeEvents).1
      (SessionEvent.frame PoseOutcome.noLandmarks true)).sentTelemetry = true := by
  refine ⟨by rfl, by decide, ?_, by rfl, ?_⟩ <;>
    norm_num [cadenceProbeEvents, sessionRun, sessionStep, process_frame,
      initialSession, max_errors, List.replicate]

end Pushup
